import Mathlib

/-!
Verification of the SeedVR2 upscale server (`SeedVr2Server.py`): a shallow
embedding of its tile/offload planner (`calculate_tile_settings`), the request
validator (`ensure_minimum_resolution`), and the subprocess invocation protocol
of `upscale_with_cli` (argument-list construction, output-artifact discovery,
scratch-workspace cleanup), together with theorems settling the specified
properties of each.

Conventions of the embedding: Python non-negative integers become `ℕ`, possibly
negative ones `ℤ`, floats `ℚ` (the planner compares floats to `0` only, and its
`int(width * (target_resolution / height))` — truncation toward zero of a
non-negative value — is modelled as exact natural floor division
`width * target / height`).
-/

namespace SeedVr2

/-! ## Tile/Offload Planner (`calculate_tile_settings`, lines 148–193) -/

/-- Output dimensions (lines 154–160): if `height < width` then
`out_height = target_resolution` and `out_width = int(width * (target/height))`,
else `out_width = target_resolution` and `out_height = int(height * (target/width))`.
Returned as `(out_width, out_height)`; Python's `int()` truncation of the
non-negative float product is modelled as exact floor division. -/
def outputDims (width height target : ℕ) : ℕ × ℕ :=
  if height < width then
    (width * target / height, target)
  else
    (target, height * target / width)

/-- `max_dim = max(out_width, out_height)` (line 162). -/
def maxDim (width height target : ℕ) : ℕ :=
  max (outputDims width height target).1 (outputDims width height target).2

/-- `total_pixels = out_width * out_height` (line 163). -/
def totalPixels (width height target : ℕ) : ℕ :=
  (outputDims width height target).1 * (outputDims width height target).2

/-- `calculate_tile_settings` (lines 148–193): returns
`(tile_size, tile_overlap, blocks_to_swap)`. -/
def calculate_tile_settings (width height target : ℕ) : ℕ × ℕ × ℕ :=
  let out_width := (outputDims width height target).1
  let out_height := (outputDims width height target).2
  let max_dim := max out_width out_height
  let total_pixels := out_width * out_height
  let tile_size :=
    if max_dim ≤ 1024 then 512
    else if max_dim ≤ 2048 then 512
    else if max_dim ≤ 4096 then 384
    else 256
  let tile_overlap := max 64 (tile_size / 4)
  let blocks_to_swap :=
    if total_pixels > 40000000 then 32
    else if total_pixels > 25000000 then 24
    else if total_pixels > 16000000 then 16
    else if total_pixels > 9000000 then 8
    else 0
  (tile_size, tile_overlap, blocks_to_swap)

/-- Spec-side step function for `tile_size` as a function of `max_dim`,
written from the spec's threshold table: `≤1024 → 512; ≤2048 → 512;
≤4096 → 384; else → 256`. -/
def specTileSize (max_dim : ℕ) : ℕ :=
  if max_dim ≤ 1024 then 512
  else if max_dim ≤ 2048 then 512
  else if max_dim ≤ 4096 then 384
  else 256

/-- Spec-side step function for `blocks_to_swap` as a function of
`total_pixels`, written from the spec's threshold table: `>40,000,000 → 32;
>25,000,000 → 24; >16,000,000 → 16; >9,000,000 → 8; else → 0`. -/
def specBlocksToSwap (total_pixels : ℕ) : ℕ :=
  if total_pixels > 40000000 then 32
  else if total_pixels > 25000000 then 24
  else if total_pixels > 16000000 then 16
  else if total_pixels > 9000000 then 8
  else 0

/-- Round-to-nearest of the exact ratio `a / b` (half rounds up), the
reading of the spec's `round(width × target_resolution / height)`. -/
def roundNearest (a b : ℕ) : ℕ :=
  (2 * a + b) / (2 * b)

end SeedVr2

namespace SeedVr2

/-! ## Theorems about the planner -/

/-- C1 counterexample: at the valid input width = 5, height = 3,
target_resolution = 64 (so height < width), the code's longer output side is
the truncated value 106, not the rounded proportional value
round(5 × 64 / 3) = round(106.67) = 107 demanded by the claim. -/
theorem scaling_rounds_counterexample :
    0 < 5 ∧ 0 < 3 ∧ 64 ≤ 64 ∧ 3 < 5 ∧
    (outputDims 5 3 64).2 = 64 ∧
    (outputDims 5 3 64).1 = 106 ∧
    roundNearest (5 * 64) 3 = 107 ∧
    (outputDims 5 3 64).1 ≠ roundNearest (5 * 64) 3 := by
  decide

/-- C1 (amended): for every width > 0, height > 0 and target_resolution ≥ 64,
the shorter source side maps exactly to `target_resolution` and the longer side
is the truncated (floor) proportional value: if height < width then
out_height = target and out_width = ⌊width × target / height⌋, and symmetrically
when height ≥ width; in all cases the smaller output dimension equals the
target. -/
theorem scaling_shorter_side_exact (w h t : ℕ) (hw : 0 < w) (hh : 0 < h)
    (ht : 64 ≤ t) :
    (h < w → (outputDims w h t).2 = t ∧ (outputDims w h t).1 = w * t / h) ∧
    (w ≤ h → (outputDims w h t).1 = t ∧ (outputDims w h t).2 = h * t / w) ∧
    min (outputDims w h t).1 (outputDims w h t).2 = t := by
  refine ⟨fun hlt => by simp [outputDims, hlt], fun hle => by simp [outputDims, Nat.not_lt.mpr hle], ?_⟩
  by_cases hlt : h < w
  · have h1 : t ≤ w * t / h := by
      calc t = h * t / h := by rw [Nat.mul_div_cancel_left t hh]
        _ ≤ w * t / h := Nat.div_le_div_right (Nat.mul_le_mul_right t hlt.le)
    simp [outputDims, hlt, min_eq_right h1]
  · have hle : w ≤ h := Nat.not_lt.mp hlt
    have h1 : t ≤ h * t / w := by
      calc t = w * t / w := by rw [Nat.mul_div_cancel_left t hw]
        _ ≤ h * t / w := Nat.div_le_div_right (Nat.mul_le_mul_right t hle)
    simp [outputDims, hlt, min_eq_left h1]

/-- Witness for `scaling_shorter_side_exact` at width 1920, height 1080,
target 1080. -/
theorem scaling_shorter_side_exact_witness :
    min (outputDims 1920 1080 1080).1 (outputDims 1920 1080 1080).2 = 1080 :=
  (scaling_shorter_side_exact 1920 1080 1080 (by decide) (by decide)
    (by decide)).2.2

/-- C2: for every valid input, `tile_size` is exactly the spec's step function
of `max_dim = max(out_width, out_height)` (≤1024 → 512; ≤2048 → 512;
≤4096 → 384; else 256), and at the claimed boundary points the step function
takes the claimed values. -/
theorem tile_size_step_function (w h t : ℕ) (hw : 0 < w) (hh : 0 < h)
    (ht : 64 ≤ t) :
    (calculate_tile_settings w h t).1 = specTileSize (maxDim w h t) ∧
    specTileSize 1024 = 512 ∧ specTileSize 2048 = 512 ∧
    specTileSize 2049 = 384 ∧ specTileSize 4096 = 384 ∧
    specTileSize 4097 = 256 :=
  ⟨rfl, by decide, by decide, by decide, by decide, by decide⟩

/-- Witness for `tile_size_step_function` at width 1920, height 1080,
target 1080. -/
theorem tile_size_step_function_witness :
    (calculate_tile_settings 1920 1080 1080).1 = specTileSize (maxDim 1920 1080 1080) :=
  (tile_size_step_function 1920 1080 1080 (by decide) (by decide) (by decide)).1

/-- C3: for every valid input, `blocks_to_swap` is exactly the spec's step
function of `total_pixels = out_width × out_height` with strict `>` thresholds
(>40,000,000 → 32; >25,000,000 → 24; >16,000,000 → 16; >9,000,000 → 8;
else 0), and at the claimed boundary points the step function takes the
claimed values. -/
theorem blocks_to_swap_step_function (w h t : ℕ) (hw : 0 < w) (hh : 0 < h)
    (ht : 64 ≤ t) :
    (calculate_tile_settings w h t).2.2 = specBlocksToSwap (totalPixels w h t) ∧
    specBlocksToSwap 9000000 = 0 ∧ specBlocksToSwap 9000001 = 8 ∧
    specBlocksToSwap 40000000 = 24 ∧ specBlocksToSwap 40000001 = 32 :=
  ⟨rfl, by decide, by decide, by decide, by decide⟩

/-- Witness for `blocks_to_swap_step_function` at width 1920, height 1080,
target 1080. -/
theorem blocks_to_swap_step_function_witness :
    (calculate_tile_settings 1920 1080 1080).2.2 =
      specBlocksToSwap (totalPixels 1920 1080 1080) :=
  (blocks_to_swap_step_function 1920 1080 1080 (by decide) (by decide)
    (by decide)).1

/-- C4: for every valid input, `tile_overlap = max(64, tile_size / 4)` with
floor division; it is always ≥ 64 and equals `tile_size / 4` whenever that
value exceeds 64. -/
theorem tile_overlap_formula (w h t : ℕ) (hw : 0 < w) (hh : 0 < h)
    (ht : 64 ≤ t) :
    (calculate_tile_settings w h t).2.1 =
      max 64 ((calculate_tile_settings w h t).1 / 4) ∧
    64 ≤ (calculate_tile_settings w h t).2.1 ∧
    (64 < (calculate_tile_settings w h t).1 / 4 →
      (calculate_tile_settings w h t).2.1 = (calculate_tile_settings w h t).1 / 4) := by
  refine ⟨rfl, ?_, ?_⟩ <;>
    simp only [calculate_tile_settings] <;> split_ifs <;> simp

/-- Witness for `tile_overlap_formula` at width 1920, height 1080,
target 1080. -/
theorem tile_overlap_formula_witness :
    64 ≤ (calculate_tile_settings 1920 1080 1080).2.1 :=
  (tile_overlap_formula 1920 1080 1080 (by decide) (by decide) (by decide)).2.1

/-- C10: for every valid input, the planner's outputs lie in fixed finite
sets — tile_size ∈ {256, 384, 512}, tile_overlap ∈ {64, 96, 128},
blocks_to_swap ∈ {0, 8, 16, 24, 32} — and tile_overlap ≤ tile_size / 2. -/
theorem plan_outputs_bounded (w h t : ℕ) (hw : 0 < w) (hh : 0 < h)
    (ht : 64 ≤ t) :
    (calculate_tile_settings w h t).1 ∈ ({256, 384, 512} : Finset ℕ) ∧
    (calculate_tile_settings w h t).2.1 ∈ ({64, 96, 128} : Finset ℕ) ∧
    (calculate_tile_settings w h t).2.2 ∈ ({0, 8, 16, 24, 32} : Finset ℕ) ∧
    (calculate_tile_settings w h t).2.1 ≤ (calculate_tile_settings w h t).1 / 2 := by
  simp only [calculate_tile_settings]
  split_ifs <;> simp

/-- Witness for `plan_outputs_bounded` at width 1920, height 1080,
target 1080. -/
theorem plan_outputs_bounded_witness :
    (calculate_tile_settings 1920 1080 1080).2.1 ≤
      (calculate_tile_settings 1920 1080 1080).1 / 2 :=
  (plan_outputs_bounded 1920 1080 1080 (by decide) (by decide) (by decide)).2.2.2

end SeedVr2

namespace SeedVr2

/-! ## Request model (`UpscaleRequest`, lines 129–145) -/

/-- The fixed enumerated color-correction modes (line 135). -/
inductive ColorCorrection where
  | lab
  | wavelet
  | wavelet_adaptive
  | hsv
  | adain
  | none
deriving DecidableEq

/-- The string passed on the command line for each color-correction mode. -/
def ColorCorrection.render : ColorCorrection → String
  | .lab => "lab"
  | .wavelet => "wavelet"
  | .wavelet_adaptive => "wavelet_adaptive"
  | .hsv => "hsv"
  | .adain => "adain"
  | .none => "none"

/-- `UpscaleRequest` (lines 129–138) after validation: `resolution` is the
post-validator value (a natural number, ≥ 64 for valid requests); Python ints
that may be negative become `ℤ` and the float noise scales become `ℚ`. -/
structure UpscaleRequest where
  name : String
  resolution : ℕ
  max_resolution : ℤ
  seed : ℤ
  color_correction : ColorCorrection
  input_noise_scale : ℚ
  latent_noise_scale : ℚ
  image_base64 : String

/-- `ensure_minimum_resolution` validator (lines 140–145): a missing value or
one below 64 is replaced by the default 1080; otherwise the value passes
through unchanged. -/
def ensure_minimum_resolution (v : Option ℤ) : ℤ :=
  match v with
  | Option.none => 1080
  | Option.some n => if n < 64 then 1080 else n

/-! ## Command construction (`upscale_with_cli`, lines 236–273) -/

/-- One token of the external command's argument list. Literal strings in the
source are `lit`; values converted with `str(...)` keep their typed payload
(`nat`/`int` for integers, `rat` for floats, `path` for filesystem paths), so
that a value token is never confused with a flag token. -/
inductive Token where
  | lit : String → Token
  | nat : ℕ → Token
  | int : ℤ → Token
  | rat : ℚ → Token
  | path : String → Token
deriving DecidableEq

/-- The argument list built by `upscale_with_cli` (lines 236–273), given the
source image's width and height and the validated request. Paths are the
workspace-relative names (`input.png`, `output`). -/
def buildCmd (width height : ℕ) (r : UpscaleRequest) : List Token :=
  let ts := (calculate_tile_settings width height r.resolution).1
  let ov := (calculate_tile_settings width height r.resolution).2.1
  let bs := (calculate_tile_settings width height r.resolution).2.2
  [ Token.path "python", Token.path "inference_cli.py",
    Token.path "input.png",
    Token.lit "--output", Token.path "output",
    Token.lit "--resolution", Token.nat r.resolution,
    Token.lit "--seed", Token.int r.seed,
    Token.lit "--color_correction", Token.lit r.color_correction.render,
    Token.lit "--batch_size", Token.lit "1" ]
  ++ (if 0 < r.max_resolution then
        [ Token.lit "--max_resolution", Token.int r.max_resolution ] else [])
  ++ (if 0 < r.input_noise_scale then
        [ Token.lit "--input_noise_scale", Token.rat r.input_noise_scale ] else [])
  ++ (if 0 < r.latent_noise_scale then
        [ Token.lit "--latent_noise_scale", Token.rat r.latent_noise_scale ] else [])
  ++ [ Token.lit "--vae_encode_tiled", Token.lit "--vae_decode_tiled",
       Token.lit "--vae_encode_tile_size", Token.nat ts,
       Token.lit "--vae_decode_tile_size", Token.nat ts,
       Token.lit "--vae_encode_tile_overlap", Token.nat ov,
       Token.lit "--vae_decode_tile_overlap", Token.nat ov ]
  ++ (if 0 < bs then
        [ Token.lit "--blocks_to_swap", Token.nat bs,
          Token.lit "--dit_offload_device", Token.lit "cpu",
          Token.lit "--swap_io_components" ] else [])

/-- Membership in a conditional segment of the command. -/
theorem mem_if_nil {α : Type} (p : Prop) [Decidable p] (a : α) (l : List α) :
    (a ∈ if p then l else []) ↔ p ∧ a ∈ l := by
  split_ifs with h <;> simp [h]

/-- C5: the argument list contains the max-resolution flag iff
`max_resolution > 0`, the input-noise-scale flag iff `input_noise_scale > 0`,
the latent-noise-scale flag iff `latent_noise_scale > 0`, and always contains
the tiled-encode and tiled-decode flags together with the plan's tile size and
tile overlap for both encode and decode (as one contiguous block). -/
theorem cmd_flag_conditions (w h : ℕ) (r : UpscaleRequest) :
    (Token.lit "--max_resolution" ∈ buildCmd w h r ↔ 0 < r.max_resolution) ∧
    (Token.lit "--input_noise_scale" ∈ buildCmd w h r ↔ 0 < r.input_noise_scale) ∧
    (Token.lit "--latent_noise_scale" ∈ buildCmd w h r ↔ 0 < r.latent_noise_scale) ∧
    [ Token.lit "--vae_encode_tiled", Token.lit "--vae_decode_tiled",
      Token.lit "--vae_encode_tile_size",
      Token.nat (calculate_tile_settings w h r.resolution).1,
      Token.lit "--vae_decode_tile_size",
      Token.nat (calculate_tile_settings w h r.resolution).1,
      Token.lit "--vae_encode_tile_overlap",
      Token.nat (calculate_tile_settings w h r.resolution).2.1,
      Token.lit "--vae_decode_tile_overlap",
      Token.nat (calculate_tile_settings w h r.resolution).2.1 ]
      <:+: buildCmd w h r := by
  refine ⟨?_, ?_, ?_, ?_⟩
  · obtain ⟨nm, res, mx, sd, cc, ins, lns, img⟩ := r
    cases cc <;> simp [buildCmd, mem_if_nil, ColorCorrection.render]
  · obtain ⟨nm, res, mx, sd, cc, ins, lns, img⟩ := r
    cases cc <;> simp [buildCmd, mem_if_nil, ColorCorrection.render]
  · obtain ⟨nm, res, mx, sd, cc, ins, lns, img⟩ := r
    cases cc <;> simp [buildCmd, mem_if_nil, ColorCorrection.render]
  · refine ⟨ [ Token.path "python", Token.path "inference_cli.py",
        Token.path "input.png",
        Token.lit "--output", Token.path "output",
        Token.lit "--resolution", Token.nat r.resolution,
        Token.lit "--seed", Token.int r.seed,
        Token.lit "--color_correction", Token.lit r.color_correction.render,
        Token.lit "--batch_size", Token.lit "1" ]
      ++ (if 0 < r.max_resolution then
            [ Token.lit "--max_resolution", Token.int r.max_resolution ] else [])
      ++ (if 0 < r.input_noise_scale then
            [ Token.lit "--input_noise_scale", Token.rat r.input_noise_scale ] else [])
      ++ (if 0 < r.latent_noise_scale then
            [ Token.lit "--latent_noise_scale", Token.rat r.latent_noise_scale ] else []),
      (if 0 < (calculate_tile_settings w h r.resolution).2.2 then
            [ Token.lit "--blocks_to_swap",
              Token.nat (calculate_tile_settings w h r.resolution).2.2,
              Token.lit "--dit_offload_device", Token.lit "cpu",
              Token.lit "--swap_io_components" ] else []), ?_ ⟩
    simp [buildCmd]

/-- Witness for `cmd_flag_conditions`: with `max_resolution = 2000` the flag is
present. -/
theorem cmd_flag_conditions_witness :
    Token.lit "--max_resolution" ∈
      buildCmd 1 1 ⟨ "", 1080, 2000, 42, ColorCorrection.lab, 0, 0, "" ⟩ :=
  (cmd_flag_conditions 1 1
    ⟨ "", 1080, 2000, 42, ColorCorrection.lab, 0, 0, "" ⟩).1.mpr (by decide)

/-- C6: the three offload arguments travel together — the block-swap count,
the offload-device setting (`cpu`) and the I/O-component swap flag each appear
in the command iff the plan's `blocks_to_swap > 0`, and when positive they
appear as the contiguous final block. -/
theorem cmd_offload_together (w h : ℕ) (r : UpscaleRequest) :
    (0 < (calculate_tile_settings w h r.resolution).2.2 →
      [ Token.lit "--blocks_to_swap",
        Token.nat (calculate_tile_settings w h r.resolution).2.2,
        Token.lit "--dit_offload_device", Token.lit "cpu",
        Token.lit "--swap_io_components" ] <:+: buildCmd w h r) ∧
    (Token.lit "--blocks_to_swap" ∈ buildCmd w h r ↔
      0 < (calculate_tile_settings w h r.resolution).2.2) ∧
    (Token.lit "--dit_offload_device" ∈ buildCmd w h r ↔
      0 < (calculate_tile_settings w h r.resolution).2.2) ∧
    (Token.lit "cpu" ∈ buildCmd w h r ↔
      0 < (calculate_tile_settings w h r.resolution).2.2) ∧
    (Token.lit "--swap_io_components" ∈ buildCmd w h r ↔
      0 < (calculate_tile_settings w h r.resolution).2.2) := by
  refine ⟨?_, ?_, ?_, ?_, ?_⟩
  · intro hbs
    refine ⟨ [ Token.path "python", Token.path "inference_cli.py",
        Token.path "input.png",
        Token.lit "--output", Token.path "output",
        Token.lit "--resolution", Token.nat r.resolution,
        Token.lit "--seed", Token.int r.seed,
        Token.lit "--color_correction", Token.lit r.color_correction.render,
        Token.lit "--batch_size", Token.lit "1" ]
      ++ (if 0 < r.max_resolution then
            [ Token.lit "--max_resolution", Token.int r.max_resolution ] else [])
      ++ (if 0 < r.input_noise_scale then
            [ Token.lit "--input_noise_scale", Token.rat r.input_noise_scale ] else [])
      ++ (if 0 < r.latent_noise_scale then
            [ Token.lit "--latent_noise_scale", Token.rat r.latent_noise_scale ] else [])
      ++ [ Token.lit "--vae_encode_tiled", Token.lit "--vae_decode_tiled",
           Token.lit "--vae_encode_tile_size",
           Token.nat (calculate_tile_settings w h r.resolution).1,
           Token.lit "--vae_decode_tile_size",
           Token.nat (calculate_tile_settings w h r.resolution).1,
           Token.lit "--vae_encode_tile_overlap",
           Token.nat (calculate_tile_settings w h r.resolution).2.1,
           Token.lit "--vae_decode_tile_overlap",
           Token.nat (calculate_tile_settings w h r.resolution).2.1 ], [], ?_ ⟩
    simp [buildCmd, hbs]
  · obtain ⟨nm, res, mx, sd, cc, ins, lns, img⟩ := r
    cases cc <;> simp [buildCmd, mem_if_nil, ColorCorrection.render]
  · obtain ⟨nm, res, mx, sd, cc, ins, lns, img⟩ := r
    cases cc <;> simp [buildCmd, mem_if_nil, ColorCorrection.render]
  · obtain ⟨nm, res, mx, sd, cc, ins, lns, img⟩ := r
    cases cc <;> simp [buildCmd, mem_if_nil, ColorCorrection.render]
  · obtain ⟨nm, res, mx, sd, cc, ins, lns, img⟩ := r
    cases cc <;> simp [buildCmd, mem_if_nil, ColorCorrection.render]

/-- Witness for `cmd_offload_together`: an 8000×6000 image at target 4320
yields `blocks_to_swap = 16 > 0`, so the swap flag is present. -/
theorem cmd_offload_together_witness :
    Token.lit "--swap_io_components" ∈
      buildCmd 8000 6000 ⟨ "", 4320, 0, 42, ColorCorrection.lab, 0, 0, "" ⟩ :=
  (cmd_offload_together 8000 6000
    ⟨ "", 4320, 0, 42, ColorCorrection.lab, 0, 0, "" ⟩).2.2.2.2.mpr (by decide)

end SeedVr2

namespace SeedVr2

/-! ## Invocation outcome protocol (`upscale_with_cli`, lines 226–338) -/

/-- The typed failures of one invocation: non-zero exit (`RuntimeError
"CLI failed"`, line 297), `subprocess.TimeoutExpired` propagating from
`subprocess.run` (line 288), and no discoverable output (`RuntimeError
"No output file found"`, line 318). Each diagnostic-carrying failure keeps the
captured text. -/
inductive InvokeError where
  | executionError : String → InvokeError
  | timeoutExpired : InvokeError
  | artifactNotFound : String → InvokeError
deriving DecidableEq

/-- What the external process left behind: whether `subprocess.run` timed out,
its exit code, its captured streams, and the filenames present in the
workspace's `output/` directory, in directory order. -/
structure RunOutcome where
  timedOut : Bool
  exitCode : ℤ
  stdout : String
  stderr : String
  outputFiles : List String

/-- Output-artifact discovery (lines 301–318): prefer `output/input.png`;
otherwise take the first file of the `*.png` scan of the output directory
(`glob("*.png")`, modelled as an `endsWith ".png"` filter in directory order);
otherwise fail with the artifact-not-found error carrying the CLI's stdout. -/
def locateArtifact (outputFiles : List String) (stdout : String) :
    Except InvokeError String :=
  if "input.png" ∈ outputFiles then Except.ok "input.png"
  else
    match outputFiles.filter (fun f => f.endsWith ".png") with
    | [] => Except.error (InvokeError.artifactNotFound stdout)
    | f :: _ => Except.ok f

/-- Lines 294–318: a completed (non-timed-out) run fails with
`executionError` on non-zero exit, carrying `stderr or stdout` (Python `or`:
stderr when non-empty, else stdout); on zero exit it proceeds to artifact
discovery. -/
def processCompleted (exitCode : ℤ) (stdout stderr : String)
    (outputFiles : List String) : Except InvokeError String :=
  if exitCode ≠ 0 then
    Except.error (InvokeError.executionError
      (if stderr ≠ "" then stderr else stdout))
  else locateArtifact outputFiles stdout

/-- The try-block body of `upscale_with_cli` (lines 228–330): a timeout
propagates as `timeoutExpired`; otherwise the run's exit code and output
directory decide the outcome. A successful outcome is the located artifact
filename (whose bytes are then read verbatim). -/
def runBody (rc : RunOutcome) : Except InvokeError String :=
  if rc.timedOut then Except.error InvokeError.timeoutExpired
  else processCompleted rc.exitCode rc.stdout rc.stderr rc.outputFiles

/-- Python `try/finally` over `Except` (lines 227/332): the finally action
always runs; if it raises, its exception replaces the body's outcome. -/
def tryFinallyE {ε α : Type} (body : Except ε α) (fin : Except ε Unit) :
    Except ε α :=
  match fin with
  | Except.ok _ => body
  | Except.error e => Except.error e

/-- The bare recursive delete of the workspace: it may fail (e.g. a held file
handle on Windows), reported as an OS error string. -/
def rmtreeRaw (deleteFails : Bool) : Except String Unit :=
  if deleteFails then Except.error "OSError" else Except.ok ()

/-- `shutil.rmtree(tmpdir, ignore_errors=True)` (line 336): with
`ignore_errors=True` any error of the recursive delete is suppressed and the
call returns normally. -/
def rmtreeIgnoreErrors (deleteFails : Bool) : Except InvokeError Unit :=
  match rmtreeRaw deleteFails with
  | Except.ok _ => Except.ok ()
  | Except.error _ => Except.ok ()

/-- The finally clause (lines 332–338): the delete itself suppresses errors,
and the surrounding `except Exception` prints a warning and swallows anything
else, so cleanup never raises. -/
def cleanupWorkspace (deleteFails : Bool) : Except InvokeError Unit :=
  match rmtreeIgnoreErrors deleteFails with
  | Except.ok u => Except.ok u
  | Except.error _ => Except.ok ()

/-- `upscale_with_cli`'s outcome protocol (lines 226–338): the try-block body
wrapped in the workspace-cleanup finally clause. -/
def upscale_with_cli (rc : RunOutcome) (deleteFails : Bool) :
    Except InvokeError String :=
  tryFinallyE (runBody rc) (cleanupWorkspace deleteFails)

/-- C7: on zero exit the invoker looks first for `output/input.png`; if absent
it takes the first file of the png scan of the output directory; if none is
found it fails with the artifact-not-found error carrying the captured
diagnostic output. -/
theorem artifact_discovery (rc : RunOutcome) (hT : rc.timedOut = false)
    (hZ : rc.exitCode = 0) :
    ("input.png" ∈ rc.outputFiles → runBody rc = Except.ok "input.png") ∧
    ("input.png" ∉ rc.outputFiles →
      ∀ f, (rc.outputFiles.filter (fun g => g.endsWith ".png")).head? = some f →
        runBody rc = Except.ok f) ∧
    ("input.png" ∉ rc.outputFiles →
      rc.outputFiles.filter (fun g => g.endsWith ".png") = [] →
        runBody rc = Except.error (InvokeError.artifactNotFound rc.stdout)) := by
  refine ⟨?_, ?_, ?_⟩
  · intro hmem
    simp [runBody, hT, processCompleted, hZ, locateArtifact, hmem]
  · intro hmem f hf
    rcases hfil : rc.outputFiles.filter (fun g => g.endsWith ".png") with _ | ⟨g, l⟩
    · rw [hfil] at hf
      simp at hf
    · rw [hfil] at hf
      simp at hf
      simp [runBody, hT, processCompleted, hZ, locateArtifact, hmem, hfil, hf]
  · intro hmem hfil
    simp [runBody, hT, processCompleted, hZ, locateArtifact, hmem, hfil]

/-- Witness for `artifact_discovery`: a clean run whose output directory holds
exactly `input.png`. -/
theorem artifact_discovery_witness :
    runBody ⟨ false, 0, "log", "", [ "input.png" ] ⟩ = Except.ok "input.png" :=
  (artifact_discovery ⟨ false, 0, "log", "", [ "input.png" ] ⟩ rfl rfl).1
    (by simp)

/-- C8: whatever the run's outcome — success, execution error, timeout or
missing artifact — the invoker's result is exactly the try-block body's
result (cleanup never masks or replaces it), the cleanup never raises even
when the recursive delete fails, and the result is one of the four documented
outcomes. -/
theorem cleanup_never_masks (rc : RunOutcome) (deleteFails : Bool) :
    upscale_with_cli rc deleteFails = runBody rc ∧
    cleanupWorkspace deleteFails = Except.ok () ∧
    ((∃ f, upscale_with_cli rc deleteFails = Except.ok f) ∨
     (∃ d, upscale_with_cli rc deleteFails =
        Except.error (InvokeError.executionError d)) ∨
     upscale_with_cli rc deleteFails = Except.error InvokeError.timeoutExpired ∨
     (∃ d, upscale_with_cli rc deleteFails =
        Except.error (InvokeError.artifactNotFound d))) := by
  have hclean : cleanupWorkspace deleteFails = Except.ok () := by
    cases deleteFails <;> rfl
  have heq : upscale_with_cli rc deleteFails = runBody rc := by
    rw [upscale_with_cli, hclean]
    rfl
  refine ⟨heq, hclean, ?_⟩
  rw [heq]
  rcases hb : runBody rc with e | f
  · cases e with
    | executionError d => exact Or.inr (Or.inl ⟨d, rfl⟩)
    | timeoutExpired => exact Or.inr (Or.inr (Or.inl rfl))
    | artifactNotFound d => exact Or.inr (Or.inr (Or.inr ⟨d, rfl⟩))
  · exact Or.inl ⟨f, rfl⟩

/-- C9: the validator maps a missing or below-minimum target resolution to the
default 1080, so the value reaching the planner and command builder is always
at least 64. -/
theorem resolution_validator_clamps (v : Option ℤ) :
    64 ≤ ensure_minimum_resolution v ∧
    ((v = Option.none ∨ ∃ n, v = Option.some n ∧ n < 64) →
      ensure_minimum_resolution v = 1080) := by
  cases v with
  | none => simp [ensure_minimum_resolution]
  | some n =>
    by_cases hn : n < 64 <;> simp [ensure_minimum_resolution, hn] <;> omega

/-- Witness for `resolution_validator_clamps`: the below-minimum value 10 is
replaced by 1080. -/
theorem resolution_validator_clamps_witness :
    64 ≤ ensure_minimum_resolution (Option.some 10) ∧
    ensure_minimum_resolution (Option.some 10) = 1080 :=
  ⟨(resolution_validator_clamps (Option.some 10)).1,
   (resolution_validator_clamps (Option.some 10)).2
     (Or.inr ⟨10, rfl, by decide⟩)⟩

end SeedVr2
